import Mathlib

/-!
A verification development for the two-stage AI-text attribution pipeline in
`app.py`.  The Python source is shallowly embedded: Python floats become `ℚ`,
the two scikit-learn classifiers become records of pure scoring functions,
dictionaries returned by the pipeline become structures, and the one fallible
operation (indexing `ranked[1]`, which can raise `IndexError`) is modelled
with `Option`.  Python's `sorted(..., key=lambda x: x[1], reverse=True)` is a
stable descending sort, realised here by `List.insertionSort` with the
relation `scoreGE` (insertion sort in Mathlib is stable, and a stable sort of
a list by a total preorder is unique, so the two agree extensionally).
-/

/-- The configuration dictionary `CONFIG` of `app.py`: three numeric
thresholds.  `min_words` is compared against a word count, so it is a `Nat`;
the two confidence thresholds are reals in the source and become `ℚ`. -/
structure Config where
  min_words : Nat
  human_confidence_threshold : ℚ
  attrib_confidence_gap : ℚ
deriving DecidableEq

/-- The built-in default configuration from lines 21-25 of `app.py`:
`{"min_words": 30, "human_confidence_threshold": 0.5, "attrib_confidence_gap": 0.15}`. -/
def default_config : Config :=
  { min_words := 30
    human_confidence_threshold := 1/2
    attrib_confidence_gap := 15/100 }

/-- Python's `round(x, 3)`: round to 3 decimal places.  Mathlib's `round` is
round-half-up while Python uses round-half-even; the two differ only on exact
ties at the fourth decimal, which none of the properties below touch. -/
def round3 (x : ℚ) : ℚ := ((round (x * 1000) : ℤ) : ℚ) / 1000

/-- Drop leading whitespace characters from a character list. -/
def dropWS : List Char → List Char
  | [] => []
  | c :: cs => if c.isWhitespace then dropWS cs else c :: cs

/-- Python's `str.strip()`: remove leading and trailing whitespace. -/
def pyStrip (s : String) : String :=
  String.mk ((dropWS ((dropWS s.toList).reverse)).reverse)

/-- Accumulator recursion behind `pySplitWS`: `cur` holds the (reversed)
current word. -/
def wordsAux : List Char → List Char → List (List Char)
  | [], cur => if cur.isEmpty then [] else [cur.reverse]
  | c :: cs, cur =>
    if c.isWhitespace then
      if cur.isEmpty then wordsAux cs [] else cur.reverse :: wordsAux cs []
    else wordsAux cs (c :: cur)

/-- Python's `str.split()` with no separator: split on runs of whitespace,
discarding empty fragments. -/
def pySplitWS (s : String) : List String :=
  (wordsAux s.toList []).map String.mk

/-- `len(text.split())` from line 73 of `app.py`. -/
def word_count (text : String) : Nat := (pySplitWS text).length

/-- The sort relation used for ranking: `a` ranks no lower than `b` when its
score is at least `b`'s (descending order by the second component). -/
def scoreGE (a b : String × ℚ) : Prop := b.2 ≤ a.2

instance : DecidableRel scoreGE :=
  fun a b => inferInstanceAs (Decidable (b.2 ≤ a.2))

instance : IsTotal (String × ℚ) scoreGE := ⟨fun a b => le_total b.2 a.2⟩

instance : IsTrans (String × ℚ) scoreGE :=
  ⟨fun _ _ _ h₁ h₂ => le_trans h₂ h₁⟩

/-- The binary human-vs-AI classifier (`human_ai_model`), reduced to the two
operations `app.py` uses on it: `decision_function([text])[0]` (a single
signed score) and `predict([text])[0]` (a label). -/
structure HumanAIModel where
  decision_function : String → ℚ
  predict : String → String

/-- The multi-class attribution classifier (`attrib_model`), reduced to the
operations `app.py` uses: `classes_` (the declared class enumeration) and
`decision_function([text])[0]` (one score per class, in class order). -/
structure AttribModel where
  classes : List String
  decision_function : String → List ℚ

/-- Lines 35-39 of `app.py`: `sorted(zip(classes, scores), key=lambda x: x[1],
reverse=True)` — the stable descending ranking of (class, score) pairs. -/
def ranked_candidates (model : AttribModel) (text : String) : List (String × ℚ) :=
  (model.classes.zip (model.decision_function text)).insertionSort scoreGE

/-- `classify_with_confidence(text, model, top_k)` from `app.py`:
the ranked list truncated to its `top_k` head (`ranked[:top_k]`). -/
def classify_with_confidence (model : AttribModel) (text : String)
    (top_k : Nat) : List (String × ℚ) :=
  (ranked_candidates model text).take top_k

/-- The dictionary returned by `safe_attribution`. -/
structure AttributionResult where
  predicted_model : String
  confidence_gap : ℚ
  top_candidates : List (String × ℚ)
deriving DecidableEq

/-- `safe_attribution(text)` from `app.py`.  The Python indexes `ranked[0]`
and `ranked[1]`, which raises `IndexError` when the truncated ranking has
fewer than two entries; that failure is modelled by `none`. -/
def safe_attribution (model : AttribModel) (text : String) :
    Option AttributionResult :=
  match classify_with_confidence model text 3 with
  | (best_model, best_score) :: (_, second_score) :: _ =>
    some { predicted_model := best_model
           confidence_gap := round3 (best_score - second_score)
           top_candidates :=
             (classify_with_confidence model text 3).map
               (fun p => (p.1, round3 p.2)) }
  | _ => none

/-- The dictionary returned by `human_ai_decision`. -/
structure HumanAIResult where
  label : String
  confidence : ℚ
  raw_score : ℚ
deriving DecidableEq

/-- `human_ai_decision(text)` from `app.py`. -/
def human_ai_decision (model : HumanAIModel) (text : String) : HumanAIResult :=
  { label := model.predict text
    confidence := round3 |model.decision_function text|
    raw_score := round3 (model.decision_function text) }

/-- The closed set of result dictionaries `full_classify` can return, one
constructor per `return` statement, carrying exactly the payload that return
attaches.  Both `human` returns share the `final_label` `"human"` but carry
different payloads, hence two constructors. -/
inductive Verdict where
  | uncertain (reason : String)
  | humanFromStage1 (details : HumanAIResult)
  | humanFromAttrib (details : AttributionResult)
  | aiUncertain (details : AttributionResult)
  | ai (predicted_model : String) (details : AttributionResult)
deriving DecidableEq

/-- The `final_label` field of each result dictionary. -/
def Verdict.final_label : Verdict → String
  | .uncertain _ => "uncertain"
  | .humanFromStage1 _ => "human"
  | .humanFromAttrib _ => "human"
  | .aiUncertain _ => "ai_uncertain"
  | .ai _ _ => "ai"

/-- `full_classify(text)` from `app.py`, with the module-level `CONFIG` and
the two models passed explicitly.  The Python binds `text.strip()` and the
intermediate dictionaries to locals; being pure, the embedding repeats the
subterms instead.  `none` models the `IndexError` escaping from
`safe_attribution`. -/
def full_classify (config : Config) (human_ai_model : HumanAIModel)
    (attrib_model : AttribModel) (text : String) : Option Verdict :=
  if word_count (pyStrip text) < config.min_words then
    some (Verdict.uncertain
      ("Text too short (" ++ toString (word_count (pyStrip text)) ++ " words)"))
  else if (human_ai_decision human_ai_model (pyStrip text)).label = "human" ∧
      config.human_confidence_threshold ≤
        (human_ai_decision human_ai_model (pyStrip text)).confidence then
    some (Verdict.humanFromStage1 (human_ai_decision human_ai_model (pyStrip text)))
  else
    match safe_attribution attrib_model (pyStrip text) with
    | none => none
    | some attrib =>
      if attrib.predicted_model = "human_story" then
        some (Verdict.humanFromAttrib attrib)
      else if attrib.confidence_gap < config.attrib_confidence_gap then
        some (Verdict.aiUncertain attrib)
      else
        some (Verdict.ai attrib.predicted_model attrib)

/-- `full_classify` instrumented with oracle invocation counters: the second
and third components count how many times the human/AI oracle and the
attribution oracle, respectively, have their scoring functions invoked on the
given request (each branch of the Python calls `human_ai_decision` at most
once and `safe_attribution` at most once). -/
def full_classify_count (config : Config) (human_ai_model : HumanAIModel)
    (attrib_model : AttribModel) (text : String) : Option Verdict × Nat × Nat :=
  if word_count (pyStrip text) < config.min_words then
    (some (Verdict.uncertain
      ("Text too short (" ++ toString (word_count (pyStrip text)) ++ " words)")), 0, 0)
  else if (human_ai_decision human_ai_model (pyStrip text)).label = "human" ∧
      config.human_confidence_threshold ≤
        (human_ai_decision human_ai_model (pyStrip text)).confidence then
    (some (Verdict.humanFromStage1 (human_ai_decision human_ai_model (pyStrip text))), 1, 0)
  else
    match safe_attribution attrib_model (pyStrip text) with
    | none => (none, 1, 1)
    | some attrib =>
      if attrib.predicted_model = "human_story" then
        (some (Verdict.humanFromAttrib attrib), 1, 1)
      else if attrib.confidence_gap < config.attrib_confidence_gap then
        (some (Verdict.aiUncertain attrib), 1, 1)
      else
        (some (Verdict.ai attrib.predicted_model attrib), 1, 1)

/-- The observable states of the optional configuration resource
`saved_models/config.json` (lines 16-25 of `app.py`), abstracting the
filesystem: whether `os.path.exists` reports it, and — when it does — whether
`open` + `json.load` succeed. -/
inductive ConfigResource where
  | absent
  | presentUnreadable
  | presentMalformed
  | presentParsable (cfg : Config)

/-- The configuration-loading block of `app.py` (lines 16-25) as a function of
the resource state.  `os.path.exists` false ⇒ built-in defaults; when the file
exists, `open` raising (unreadable file) or `json.load` raising (malformed
JSON) aborts startup, modelled by `Except.error`. -/
def load_config : ConfigResource → Except String Config
  | .absent => .ok default_config
  | .presentUnreadable => .error "IOError"
  | .presentMalformed => .error "JSONDecodeError"
  | .presentParsable cfg => .ok cfg

/-! ## Helper lemmas and concrete oracle instances -/

/-- The instrumented pipeline computes the same verdict as the plain one. -/
theorem full_classify_count_fst (config : Config) (hm : HumanAIModel)
    (am : AttribModel) (text : String) :
    (full_classify_count config hm am text).1 = full_classify config hm am text := by
  unfold full_classify_count full_classify
  split
  · rfl
  · split
    · rfl
    · cases safe_attribution am (pyStrip text) with
      | none => rfl
      | some attrib =>
        split
        · rfl
        · split
          · rfl
          · split <;> rfl

/-- Rounding an integer rational to 3 decimals is the identity. -/
theorem round3_intCast (n : ℤ) : round3 (n : ℚ) = (n : ℚ) := by
  unfold round3
  have h : ((n : ℚ) * 1000) = ((n * 1000 : ℤ) : ℚ) := by push_cast; ring
  rw [h, round_intCast]
  push_cast
  ring

/-- Rounding an exact multiple of `1/1000` to 3 decimals is the identity. -/
theorem round3_thousandths (n : ℤ) : round3 ((n : ℚ) / 1000) = (n : ℚ) / 1000 := by
  unfold round3
  rw [div_mul_cancel₀ _ (by norm_num : (1000 : ℚ) ≠ 0), round_intCast]

/-- `round3` preserves nonnegativity. -/
theorem round3_nonneg {x : ℚ} (h : 0 ≤ x) : 0 ≤ round3 x := by
  unfold round3
  have hr : (0 : ℤ) ≤ round (x * 1000) := by
    rw [round_eq]
    refine Int.floor_nonneg.mpr ?_
    linarith
  have : (0 : ℚ) ≤ ((round (x * 1000) : ℤ) : ℚ) := by exact_mod_cast hr
  linarith

/-- A concrete human/AI oracle: decisively human (Scenario 2 of the spec:
raw score `0.8`, label `"human"`). -/
def exHumanAI : HumanAIModel := ⟨fun _ => 8/10, fun _ => "human"⟩

/-- A concrete human/AI oracle that votes `"ai"` (Scenario 3: confidence 0.9). -/
def exHumanAIVotesAi : HumanAIModel := ⟨fun _ => -(9/10), fun _ => "ai"⟩

/-- A concrete attribution oracle realising Scenario 3 of the spec:
top-3 scores `[("gpt_style", 2.0), ("llama_style", 1.7), ("human_story", 1.2)]`. -/
def exAttrib : AttribModel :=
  ⟨["gpt_style", "llama_style", "human_story"], fun _ => [2, 17/10, 12/10]⟩

/-- A permissive configuration (`min_words = 1`) so that short concrete texts
pass the guardrail in scenarios; thresholds as in the defaults. -/
def exConfig : Config :=
  { min_words := 1, human_confidence_threshold := 1/2, attrib_confidence_gap := 15/100 }

/-- Evaluation of the ranking of `exAttrib` (its scores are text-independent
and already in descending order). -/
theorem exAttrib_ranked (t : String) :
    classify_with_confidence exAttrib t 3 =
      [("gpt_style", 2), ("llama_style", 17/10), ("human_story", 12/10)] := by
  unfold classify_with_confidence ranked_candidates exAttrib
  norm_num [List.insertionSort, List.orderedInsert, scoreGE]

/-- Evaluation of `safe_attribution` for `exAttrib`: predicted class
`"gpt_style"`, confidence gap `round(2.0 - 1.7, 3) = 0.3`. -/
theorem exAttrib_attribution (t : String) :
    safe_attribution exAttrib t =
      some { predicted_model := "gpt_style"
             confidence_gap := 3/10
             top_candidates :=
               [("gpt_style", 2), ("llama_style", 17/10), ("human_story", 12/10)] } := by
  unfold safe_attribution
  simp only [exAttrib_ranked]
  have h1 : round3 (2 - 17/10) = 3/10 := by
    have : (2 - 17/10 : ℚ) = ((300 : ℤ) : ℚ) / 1000 := by norm_num
    rw [this, round3_thousandths]; norm_num
  have h2 : round3 2 = 2 := by
    have : (2 : ℚ) = ((2 : ℤ) : ℚ) := by norm_num
    rw [this, round3_intCast]
  have h3 : round3 (17/10) = 17/10 := by
    have : (17/10 : ℚ) = ((1700 : ℤ) : ℚ) / 1000 := by norm_num
    rw [this, round3_thousandths]
  have h4 : round3 (12/10) = 12/10 := by
    have : (12/10 : ℚ) = ((1200 : ℤ) : ℚ) / 1000 := by norm_num
    rw [this, round3_thousandths]
  simp [h1, h2, h3, h4]

/-! ## Claim C1 -/

/-- Claim C1, counterexample: on the two-word input `"short text"` under the
default configuration (`min_words = 30`) the guardrail verdict's reason is
`"Text too short (2 words)"`, which embeds the actual word count but does NOT
embed the threshold `30`, contrary to the claim that the reason embeds both. -/
theorem C1_reason_lacks_threshold :
    full_classify default_config exHumanAI exAttrib "short text" =
      some (Verdict.uncertain "Text too short (2 words)") ∧
    ¬ ((toString default_config.min_words).toList <:+:
        "Text too short (2 words)".toList) := by
  constructor
  · decide
  · decide

/-- Claim C1 (amended: the reason embeds the actual word count, but not the
threshold): for every input whose trimmed, whitespace-split word count is
below `config.min_words`, the pipeline terminates with verdict `uncertain`,
neither oracle is invoked (both invocation counters are `0`), and the reason
message embeds the actual word count. -/
theorem C1_short_input_uncertain_no_oracle (config : Config) (hm : HumanAIModel)
    (am : AttribModel) (text : String)
    (h : word_count (pyStrip text) < config.min_words) :
    full_classify_count config hm am text =
      (some (Verdict.uncertain
        ("Text too short (" ++ toString (word_count (pyStrip text)) ++ " words)")), 0, 0) ∧
    (toString (word_count (pyStrip text))).toList <:+:
      ("Text too short (" ++ toString (word_count (pyStrip text)) ++ " words)").toList := by
  constructor
  · unfold full_classify_count
    rw [if_pos h]
  · exact ⟨"Text too short (".toList, " words)".toList, by
      simp [String.toList, String.data_append]⟩

/-- Witness for `C1_short_input_uncertain_no_oracle` at the concrete input
`"short text"` (2 words) under the default configuration. -/
theorem C1_witness :
    word_count (pyStrip "short text") < default_config.min_words ∧
    full_classify_count default_config exHumanAI exAttrib "short text" =
      (some (Verdict.uncertain "Text too short (2 words)"), 0, 0) :=
  ⟨by decide,
   (C1_short_input_uncertain_no_oracle default_config exHumanAI exAttrib
      "short text" (by decide)).1⟩

/-! ## Claim C2 -/

/-- Claim C2: if the guardrail passes and the human/AI oracle's label is
`"human"` with (rounded absolute) confidence at least
`config.human_confidence_threshold`, the pipeline terminates with verdict
`human` carrying the Human/AI Result as payload, and the attribution oracle
is never invoked (its invocation counter stays `0`). -/
theorem C2_confident_human_early_exit (config : Config) (hm : HumanAIModel)
    (am : AttribModel) (text : String)
    (hwc : config.min_words ≤ word_count (pyStrip text))
    (hlabel : (human_ai_decision hm (pyStrip text)).label = "human")
    (hconf : config.human_confidence_threshold ≤
      (human_ai_decision hm (pyStrip text)).confidence) :
    full_classify config hm am text =
      some (Verdict.humanFromStage1 (human_ai_decision hm (pyStrip text))) ∧
    full_classify_count config hm am text =
      (some (Verdict.humanFromStage1 (human_ai_decision hm (pyStrip text))), 1, 0) := by
  constructor
  · unfold full_classify
    rw [if_neg (Nat.not_lt.mpr hwc), if_pos ⟨hlabel, hconf⟩]
  · unfold full_classify_count
    rw [if_neg (Nat.not_lt.mpr hwc), if_pos ⟨hlabel, hconf⟩]

/-- Witness for `C2_confident_human_early_exit`: Scenario 2 of the spec, with
`exHumanAI` scoring `0.8` and label `"human"` against threshold `0.5`. -/
theorem C2_witness :
    exConfig.min_words ≤ word_count (pyStrip "hello world") ∧
    (human_ai_decision exHumanAI (pyStrip "hello world")).label = "human" ∧
    exConfig.human_confidence_threshold ≤
      (human_ai_decision exHumanAI (pyStrip "hello world")).confidence ∧
    full_classify_count exConfig exHumanAI exAttrib "hello world" =
      (some (Verdict.humanFromStage1
        (human_ai_decision exHumanAI (pyStrip "hello world"))), 1, 0) := by
  have hconf : exConfig.human_confidence_threshold ≤
      (human_ai_decision exHumanAI (pyStrip "hello world")).confidence := by
    show (1 : ℚ)/2 ≤ round3 |exHumanAI.decision_function (pyStrip "hello world")|
    show (1 : ℚ)/2 ≤ round3 |(8 : ℚ)/10|
    rw [abs_of_nonneg (by norm_num)]
    have h8 : (8/10 : ℚ) = ((800 : ℤ) : ℚ) / 1000 := by norm_num
    rw [h8, round3_thousandths]
    norm_num
  refine ⟨by decide, rfl, hconf, ?_⟩
  exact (C2_confident_human_early_exit exConfig exHumanAI exAttrib "hello world"
    (by decide) rfl hconf).2

/-! ## Claims C3 and C4 -/

/-- A concrete attribution oracle whose top-ranked class is the human
sentinel `"human_story"` (Scenario 5 of the spec). -/
def exAttribHuman : AttribModel :=
  ⟨["gpt_style", "llama_style", "human_story"], fun _ => [1, 12/10, 2]⟩

/-- A concrete attribution oracle with a thin margin (Scenario 4 of the spec:
top two scores `2.0` and `1.95`, gap `0.05`). -/
def exAttribClose : AttribModel :=
  ⟨["gpt_style", "llama_style", "human_story"], fun _ => [2, 39/20, 12/10]⟩

/-- Evaluation of the ranking of `exAttribHuman`. -/
theorem exAttribHuman_ranked (t : String) :
    classify_with_confidence exAttribHuman t 3 =
      [("human_story", 2), ("llama_style", 12/10), ("gpt_style", 1)] := by
  unfold classify_with_confidence ranked_candidates exAttribHuman
  norm_num [List.insertionSort, List.orderedInsert, scoreGE]

/-- Evaluation of `safe_attribution` for `exAttribHuman`. -/
theorem exAttribHuman_attribution (t : String) :
    safe_attribution exAttribHuman t =
      some { predicted_model := "human_story"
             confidence_gap := 8/10
             top_candidates :=
               [("human_story", 2), ("llama_style", 12/10), ("gpt_style", 1)] } := by
  unfold safe_attribution
  simp only [exAttribHuman_ranked]
  have h1 : round3 (2 - 12/10) = 8/10 := by
    have : (2 - 12/10 : ℚ) = ((800 : ℤ) : ℚ) / 1000 := by norm_num
    rw [this, round3_thousandths]; norm_num
  have h2 : round3 2 = 2 := by
    have : (2 : ℚ) = ((2 : ℤ) : ℚ) := by norm_num
    rw [this, round3_intCast]
  have h3 : round3 (12/10) = 12/10 := by
    have : (12/10 : ℚ) = ((1200 : ℤ) : ℚ) / 1000 := by norm_num
    rw [this, round3_thousandths]
  have h4 : round3 1 = 1 := by
    have : (1 : ℚ) = ((1 : ℤ) : ℚ) := by norm_num
    rw [this, round3_intCast]
  simp [h1, h2, h3, h4]

/-- Evaluation of the ranking of `exAttribClose`. -/
theorem exAttribClose_ranked (t : String) :
    classify_with_confidence exAttribClose t 3 =
      [("gpt_style", 2), ("llama_style", 39/20), ("human_story", 12/10)] := by
  unfold classify_with_confidence ranked_candidates exAttribClose
  norm_num [List.insertionSort, List.orderedInsert, scoreGE]

/-- Evaluation of `safe_attribution` for `exAttribClose`: gap
`round(2.0 - 1.95, 3) = 0.05`. -/
theorem exAttribClose_attribution (t : String) :
    safe_attribution exAttribClose t =
      some { predicted_model := "gpt_style"
             confidence_gap := 1/20
             top_candidates :=
               [("gpt_style", 2), ("llama_style", 39/20), ("human_story", 12/10)] } := by
  unfold safe_attribution
  simp only [exAttribClose_ranked]
  have h1 : round3 (2 - 39/20) = 1/20 := by
    have : (2 - 39/20 : ℚ) = ((50 : ℤ) : ℚ) / 1000 := by norm_num
    rw [this, round3_thousandths]; norm_num
  have h2 : round3 2 = 2 := by
    have : (2 : ℚ) = ((2 : ℤ) : ℚ) := by norm_num
    rw [this, round3_intCast]
  have h3 : round3 (39/20) = 39/20 := by
    have : (39/20 : ℚ) = ((1950 : ℤ) : ℚ) / 1000 := by norm_num
    rw [this, round3_thousandths]
  have h4 : round3 (12/10) = 12/10 := by
    have : (12/10 : ℚ) = ((1200 : ℤ) : ℚ) / 1000 := by norm_num
    rw [this, round3_thousandths]
  simp [h1, h2, h3, h4]

/-- Claim C3: whenever stage 2 runs (guardrail passed, stage-1 early exit not
taken) and the attribution oracle's top-ranked class is the sentinel
`"human_story"`, the pipeline terminates with verdict `human` carrying the
Attribution Result — with no hypothesis whatsoever on the confidence gap. -/
theorem C3_sentinel_overrides_gap (config : Config) (hm : HumanAIModel)
    (am : AttribModel) (text : String) (attrib : AttributionResult)
    (hwc : config.min_words ≤ word_count (pyStrip text))
    (hstage1 : ¬ ((human_ai_decision hm (pyStrip text)).label = "human" ∧
        config.human_confidence_threshold ≤
          (human_ai_decision hm (pyStrip text)).confidence))
    (hattr : safe_attribution am (pyStrip text) = some attrib)
    (hpred : attrib.predicted_model = "human_story") :
    full_classify config hm am text = some (Verdict.humanFromAttrib attrib) := by
  unfold full_classify
  rw [if_neg (Nat.not_lt.mpr hwc), if_neg hstage1]
  simp only [hattr]
  rw [if_pos hpred]

/-- Witness for `C3_sentinel_overrides_gap`: Scenario 5 with `exAttribHuman`
(whose gap, `0.8`, is large — the sentinel check still wins). -/
theorem C3_witness :
    safe_attribution exAttribHuman (pyStrip "hello world") =
      some { predicted_model := "human_story"
             confidence_gap := 8/10
             top_candidates :=
               [("human_story", 2), ("llama_style", 12/10), ("gpt_style", 1)] } ∧
    full_classify exConfig exHumanAIVotesAi exAttribHuman "hello world" =
      some (Verdict.humanFromAttrib
        { predicted_model := "human_story"
          confidence_gap := 8/10
          top_candidates :=
            [("human_story", 2), ("llama_style", 12/10), ("gpt_style", 1)] }) :=
  ⟨exAttribHuman_attribution (pyStrip "hello world"),
   C3_sentinel_overrides_gap exConfig exHumanAIVotesAi exAttribHuman "hello world" _
     (by decide) (by decide) (exAttribHuman_attribution (pyStrip "hello world")) rfl⟩

/-- Claim C4: whenever stage 2 runs and the top-ranked class is not the
sentinel, the verdict is `ai_uncertain` with the Attribution Result as
payload when `confidence_gap < config.attrib_confidence_gap`, and `ai`
carrying the predicted class plus the Attribution Result otherwise. -/
theorem C4_gap_decides_ai_verdict (config : Config) (hm : HumanAIModel)
    (am : AttribModel) (text : String) (attrib : AttributionResult)
    (hwc : config.min_words ≤ word_count (pyStrip text))
    (hstage1 : ¬ ((human_ai_decision hm (pyStrip text)).label = "human" ∧
        config.human_confidence_threshold ≤
          (human_ai_decision hm (pyStrip text)).confidence))
    (hattr : safe_attribution am (pyStrip text) = some attrib)
    (hpred : attrib.predicted_model ≠ "human_story") :
    (attrib.confidence_gap < config.attrib_confidence_gap →
       full_classify config hm am text = some (Verdict.aiUncertain attrib)) ∧
    (config.attrib_confidence_gap ≤ attrib.confidence_gap →
       full_classify config hm am text =
         some (Verdict.ai attrib.predicted_model attrib)) := by
  constructor <;> intro hgap <;>
    · unfold full_classify
      rw [if_neg (Nat.not_lt.mpr hwc), if_neg hstage1]
      simp only [hattr]
      rw [if_neg hpred]
      first
        | rw [if_pos hgap]
        | rw [if_neg (not_lt.mpr hgap)]

/-- Witness for `C4_gap_decides_ai_verdict`: Scenario 3 (`exAttrib`, gap
`0.3 ≥ 0.15`, verdict `ai`) and Scenario 4 (`exAttribClose`, gap
`0.05 < 0.15`, verdict `ai_uncertain`). -/
theorem C4_witness :
    full_classify exConfig exHumanAIVotesAi exAttrib "hello world" =
      some (Verdict.ai "gpt_style"
        { predicted_model := "gpt_style"
          confidence_gap := 3/10
          top_candidates :=
            [("gpt_style", 2), ("llama_style", 17/10), ("human_story", 12/10)] }) ∧
    full_classify exConfig exHumanAIVotesAi exAttribClose "hello world" =
      some (Verdict.aiUncertain
        { predicted_model := "gpt_style"
          confidence_gap := 1/20
          top_candidates :=
            [("gpt_style", 2), ("llama_style", 39/20), ("human_story", 12/10)] }) :=
  ⟨(C4_gap_decides_ai_verdict exConfig exHumanAIVotesAi exAttrib "hello world" _
      (by decide) (by decide) (exAttrib_attribution (pyStrip "hello world"))
      (by decide)).2 (by norm_num [exConfig]),
   (C4_gap_decides_ai_verdict exConfig exHumanAIVotesAi exAttribClose "hello world" _
      (by decide) (by decide) (exAttribClose_attribution (pyStrip "hello world"))
      (by decide)).1 (by norm_num [exConfig])⟩

/-! ## Claim C5 -/

/-- Claim C5: whenever the truncated ranking has at least two entries, the
Attribution Result exists, its `confidence_gap` is the difference of the top
two scores rounded to 3 decimals, and — the list being sorted descending —
the gap is nonnegative. -/
theorem C5_confidence_gap_round_nonneg (am : AttribModel) (text : String)
    (p q : String × ℚ) (rest : List (String × ℚ))
    (h : classify_with_confidence am text 3 = p :: q :: rest) :
    ∃ r, safe_attribution am text = some r ∧
      r.confidence_gap = round3 (p.2 - q.2) ∧ 0 ≤ r.confidence_gap := by
  obtain ⟨p1, p2⟩ := p
  obtain ⟨q1, q2⟩ := q
  have hsorted : List.Pairwise scoreGE (classify_with_confidence am text 3) :=
    List.Pairwise.sublist (List.take_sublist 3 _) (List.sorted_insertionSort scoreGE _)
  rw [h] at hsorted
  have hle : q2 ≤ p2 :=
    List.rel_of_sorted_cons hsorted (q1, q2) (List.mem_cons_self _ _)
  have hs : safe_attribution am text =
      some { predicted_model := p1
             confidence_gap := round3 (p2 - q2)
             top_candidates :=
               ((p1, p2) :: (q1, q2) :: rest).map (fun x => (x.1, round3 x.2)) } := by
    unfold safe_attribution
    simp only [h]
  exact ⟨_, hs, rfl, round3_nonneg (sub_nonneg.mpr hle)⟩

/-- Witness for `C5_confidence_gap_round_nonneg` on `exAttrib`, whose
truncated ranking has three entries with top two scores `2.0` and `1.7`. -/
theorem C5_witness :
    classify_with_confidence exAttrib "sample" 3 =
      ("gpt_style", 2) :: ("llama_style", 17/10) :: [("human_story", 12/10)] ∧
    ∃ r, safe_attribution exAttrib "sample" = some r ∧
      r.confidence_gap = round3 ((("gpt_style", 2) : String × ℚ).2 -
        (("llama_style", 17/10) : String × ℚ).2) ∧
      0 ≤ r.confidence_gap :=
  ⟨exAttrib_ranked "sample",
   C5_confidence_gap_round_nonneg exAttrib "sample" ("gpt_style", 2)
     ("llama_style", 17/10) [("human_story", 12/10)] (exAttrib_ranked "sample")⟩

/-! ## Claim C6 -/

/-- Claim C6: the ranking built from an oracle's scores is sorted in
descending score order, and it is stable — any two entries that appear in
class-enumeration order in `zip(classes, scores)` and carry equal scores
appear in that same relative order in the ranking. -/
theorem C6_ranking_sorted_stable (am : AttribModel) (text : String) :
    List.Sorted scoreGE (ranked_candidates am text) ∧
    ∀ p q : String × ℚ, p.2 = q.2 →
      List.Sublist [p, q] (am.classes.zip (am.decision_function text)) →
      List.Sublist [p, q] (ranked_candidates am text) := by
  constructor
  · exact List.sorted_insertionSort scoreGE _
  · intro p q hpq hsub
    exact List.pair_sublist_insertionSort (show scoreGE p q from hpq.ge) hsub

/-- A concrete attribution oracle with two equally-scored classes, to witness
the tie-break behaviour. -/
def exAttribTie : AttribModel := ⟨["alpha_style", "beta_style"], fun _ => [1, 1]⟩

/-- Witness for `C6_ranking_sorted_stable`: with two tied classes, the class
declared first (`"alpha_style"`) still precedes the other in the ranking. -/
theorem C6_witness :
    List.Sorted scoreGE (ranked_candidates exAttribTie "sample") ∧
    List.Sublist [("alpha_style", (1:ℚ)), ("beta_style", 1)]
      (ranked_candidates exAttribTie "sample") :=
  ⟨(C6_ranking_sorted_stable exAttribTie "sample").1,
   (C6_ranking_sorted_stable exAttribTie "sample").2 ("alpha_style", 1)
     ("beta_style", 1) rfl (List.Sublist.refl _)⟩

/-! ## Claim C7 -/

/-- A concrete attribution oracle with four classes. -/
def exAttrib4 : AttribModel :=
  ⟨["a_style", "b_style", "c_style", "d_style"], fun _ => [4, 3, 2, 1]⟩

/-- Claim C7, counterexample: `exAttrib4` has four classes (in particular at
least one), yet `classify_with_confidence` returns a list of length 3, not of
length equal to the class count — `ranked[:top_k]` truncates to `top_k = 3`. -/
theorem C7_length_not_class_count :
    1 ≤ exAttrib4.classes.length ∧
    (classify_with_confidence exAttrib4 "sample" 3).length ≠
      exAttrib4.classes.length := by
  constructor
  · decide
  · decide

/-- Claim C7 (amended: the truncated ranking's length is
`min top_k classCount`, with `top_k = 3` at every call site): provided the
oracle returns one score per class, the list returned by
`classify_with_confidence` has length `min 3 classCount` and is nonempty
whenever the oracle has at least one class. -/
theorem C7_length_min_topk (am : AttribModel) (text : String)
    (hlen : (am.decision_function text).length = am.classes.length) :
    (classify_with_confidence am text 3).length = min 3 am.classes.length ∧
    (1 ≤ am.classes.length → classify_with_confidence am text 3 ≠ []) := by
  have h : (classify_with_confidence am text 3).length = min 3 am.classes.length := by
    unfold classify_with_confidence ranked_candidates
    rw [List.length_take, List.length_insertionSort, List.length_zip, hlen,
      Nat.min_self]
  refine ⟨h, fun h1 => ?_⟩
  have hpos : 0 < (classify_with_confidence am text 3).length := by
    rw [h]; omega
  exact List.ne_nil_of_length_pos hpos

/-- Witness for `C7_length_min_topk` on the four-class oracle `exAttrib4`:
the returned list has length `min 3 4 = 3` and is nonempty. -/
theorem C7_witness :
    (exAttrib4.decision_function "sample").length = exAttrib4.classes.length ∧
    (classify_with_confidence exAttrib4 "sample" 3).length =
      min 3 exAttrib4.classes.length ∧
    classify_with_confidence exAttrib4 "sample" 3 ≠ [] :=
  ⟨rfl, (C7_length_min_topk exAttrib4 "sample" rfl).1,
   (C7_length_min_topk exAttrib4 "sample" rfl).2 (by decide)⟩

/-! ## Claim C8 -/

/-- A concrete attribution oracle with a single class. -/
def exAttrib1 : AttribModel := ⟨["only_style"], fun _ => [1]⟩

/-- If the truncated ranking has fewer than two entries, `safe_attribution`
fails (the Python `ranked[1]` raises `IndexError`). -/
theorem safe_attribution_eq_none_of_short (am : AttribModel) (t : String)
    (h : (classify_with_confidence am t 3).length < 2) :
    safe_attribution am t = none := by
  rcases hl : classify_with_confidence am t 3 with _ | ⟨⟨a1, a2⟩, _ | ⟨⟨b1, b2⟩, tl⟩⟩
  · unfold safe_attribution
    rw [hl]
  · unfold safe_attribution
    rw [hl]
  · rw [hl, List.length_cons, List.length_cons] at h
    omega

/-- Claim C8, counterexample: with the one-class oracle `exAttrib1` nothing
fails at startup — instead the classification request itself fails
(`ranked[1]` raises `IndexError`, modelled by `none`), i.e. the failure IS a
per-request failure, contrary to the claim. -/
theorem C8_per_request_failure :
    safe_attribution exAttrib1 (pyStrip "hello world") = none ∧
    full_classify exConfig exHumanAIVotesAi exAttrib1 "hello world" = none := by
  constructor
  · decide
  · decide

/-- Claim C8 (amended: the failure surfaces at request time, not at startup —
nothing in the code validates the class count at startup): for every
attribution oracle with fewer than 2 classes, any request that reaches
stage 2 fails — `safe_attribution` produces no Attribution Result (so no
confidence gap is ever computed) and `full_classify` produces no verdict. -/
theorem C8_insufficient_classes_request_time (config : Config)
    (hm : HumanAIModel) (am : AttribModel) (text : String)
    (hcl : am.classes.length < 2)
    (hwc : config.min_words ≤ word_count (pyStrip text))
    (hstage1 : ¬ ((human_ai_decision hm (pyStrip text)).label = "human" ∧
        config.human_confidence_threshold ≤
          (human_ai_decision hm (pyStrip text)).confidence)) :
    safe_attribution am (pyStrip text) = none ∧
    full_classify config hm am text = none := by
  have hlen : (classify_with_confidence am (pyStrip text) 3).length < 2 := by
    have h1 : (classify_with_confidence am (pyStrip text) 3).length =
        min 3 (min am.classes.length
          (am.decision_function (pyStrip text)).length) := by
      unfold classify_with_confidence ranked_candidates
      rw [List.length_take, List.length_insertionSort, List.length_zip]
    omega
  have hnone := safe_attribution_eq_none_of_short am (pyStrip text) hlen
  refine ⟨hnone, ?_⟩
  unfold full_classify
  rw [if_neg (Nat.not_lt.mpr hwc), if_neg hstage1]
  simp only [hnone]

/-- Witness for `C8_insufficient_classes_request_time` with the one-class
oracle `exAttrib1` on a request that passes the guardrail. -/
theorem C8_witness :
    exAttrib1.classes.length < 2 ∧
    safe_attribution exAttrib1 (pyStrip "more than one word") = none ∧
    full_classify exConfig exHumanAIVotesAi exAttrib1 "more than one word" = none :=
  ⟨by decide,
   (C8_insufficient_classes_request_time exConfig exHumanAIVotesAi exAttrib1
      "more than one word" (by decide) (by decide) (by decide)).1,
   (C8_insufficient_classes_request_time exConfig exHumanAIVotesAi exAttrib1
      "more than one word" (by decide) (by decide) (by decide)).2⟩

/-! ## Claim C9 -/

/-- Claim C9, counterexample: a configuration file that exists but cannot be
read is NOT replaced by the built-in defaults — `os.path.exists` returns true,
so the code proceeds to `open`, which raises, aborting startup. -/
theorem C9_unreadable_not_defaults :
    load_config ConfigResource.presentUnreadable = Except.error "IOError" ∧
    (load_config ConfigResource.presentUnreadable).isOk = false ∧
    load_config ConfigResource.presentUnreadable ≠ Except.ok default_config :=
  ⟨rfl, rfl, fun h => Except.noConfusion h⟩

/-- Claim C9 (amended: only an ABSENT resource falls back to the built-in
defaults `{min_words: 30, human_confidence_threshold: 0.5,
attrib_confidence_gap: 0.15}`; a resource that is present but unreadable, or
present but malformed, is a fatal startup error and no request is served). -/
theorem C9_config_load_behavior (cfg : Config) :
    load_config ConfigResource.absent = Except.ok default_config ∧
    default_config =
      { min_words := 30
        human_confidence_threshold := 1/2
        attrib_confidence_gap := 15/100 } ∧
    (load_config ConfigResource.presentUnreadable).isOk = false ∧
    (load_config ConfigResource.presentMalformed).isOk = false ∧
    load_config (ConfigResource.presentParsable cfg) = Except.ok cfg :=
  ⟨rfl, rfl, rfl, rfl, rfl⟩

/-- Witness for `C9_config_load_behavior`, instantiated at the default
configuration record. -/
theorem C9_witness :
    load_config ConfigResource.absent = Except.ok default_config ∧
    default_config =
      { min_words := 30
        human_confidence_threshold := 1/2
        attrib_confidence_gap := 15/100 } ∧
    (load_config ConfigResource.presentUnreadable).isOk = false ∧
    (load_config ConfigResource.presentMalformed).isOk = false ∧
    load_config (ConfigResource.presentParsable default_config) =
      Except.ok default_config :=
  C9_config_load_behavior default_config

/-! ## Claim C10 -/

/-- A human/AI oracle whose raw decision score `0.4996` is strictly below the
default threshold `0.5` but rounds up to it. -/
def c10HumanAI : HumanAIModel := ⟨fun _ => 4996/10000, fun _ => "human"⟩

/-- An attribution oracle whose raw top-two gap `2.0 - 1.8504 = 0.1496` is
strictly below the default gap threshold `0.15` but rounds up to it. -/
def c10AttribClose : AttribModel :=
  ⟨["gpt_style", "llama_style", "claude_style"], fun _ => [2, 18504/10000, 1]⟩

/-- Evaluation of the ranking of `c10AttribClose`. -/
theorem c10AttribClose_ranked (t : String) :
    classify_with_confidence c10AttribClose t 3 =
      [("gpt_style", 2), ("llama_style", 18504/10000), ("claude_style", 1)] := by
  unfold classify_with_confidence ranked_candidates c10AttribClose
  norm_num [List.insertionSort, List.orderedInsert, scoreGE]

/-- Evaluation of `safe_attribution` for `c10AttribClose`: the raw gap
`0.1496` is reported as `round(0.1496, 3) = 0.15`. -/
theorem c10AttribClose_attribution (t : String) :
    safe_attribution c10AttribClose t =
      some { predicted_model := "gpt_style"
             confidence_gap := 3/20
             top_candidates :=
               [("gpt_style", 2), ("llama_style", 37/20), ("claude_style", 1)] } := by
  unfold safe_attribution
  simp only [c10AttribClose_ranked]
  have h1 : round3 (2 - 18504/10000) = 3/20 := by
    unfold round3
    rw [round_eq]
    norm_num
  have h2 : round3 2 = 2 := by
    have : (2 : ℚ) = ((2 : ℤ) : ℚ) := by norm_num
    rw [this, round3_intCast]
  have h3 : round3 (18504/10000) = 37/20 := by
    unfold round3
    rw [round_eq]
    norm_num
  have h4 : round3 1 = 1 := by
    have : (1 : ℚ) = ((1 : ℤ) : ℚ) := by norm_num
    rw [this, round3_intCast]
  simp [h1, h2, h3, h4]

/-- Claim C10: the guardrail comparisons downstream of the oracles are decided
on values already rounded to 3 decimals, not on raw scores.  First conjunct:
for every request that passes the length guardrail, the stage-1 early human
exit fires exactly when the label is `"human"` and
`round(abs(raw_score), 3) ≥ human_confidence_threshold`.  Second conjunct: a
raw score of `0.4996`, strictly below the threshold `0.5`, still passes after
rounding and yields the `human` verdict.  Third conjunct: a raw gap of
`0.1496`, strictly below the gap threshold `0.15`, still passes after
rounding, so the verdict is `ai` rather than `ai_uncertain`. -/
theorem C10_rounded_comparisons :
    (∀ (config : Config) (hm : HumanAIModel) (am : AttribModel) (text : String),
      config.min_words ≤ word_count (pyStrip text) →
      (full_classify config hm am text =
          some (Verdict.humanFromStage1 (human_ai_decision hm (pyStrip text))) ↔
        (hm.predict (pyStrip text) = "human" ∧
          config.human_confidence_threshold ≤
            round3 |hm.decision_function (pyStrip text)|))) ∧
    (|c10HumanAI.decision_function (pyStrip "hello world")| <
        exConfig.human_confidence_threshold ∧
      full_classify exConfig c10HumanAI exAttrib "hello world" =
        some (Verdict.humanFromStage1
          (human_ai_decision c10HumanAI (pyStrip "hello world")))) ∧
    ((2 : ℚ) - 18504/10000 < exConfig.attrib_confidence_gap ∧
      full_classify exConfig exHumanAIVotesAi c10AttribClose "hello world" =
        some (Verdict.ai "gpt_style"
          { predicted_model := "gpt_style"
            confidence_gap := 3/20
            top_candidates :=
              [("gpt_style", 2), ("llama_style", 37/20), ("claude_style", 1)] })) := by
  have hgen : ∀ (config : Config) (hm : HumanAIModel) (am : AttribModel)
      (text : String),
      config.min_words ≤ word_count (pyStrip text) →
      (full_classify config hm am text =
          some (Verdict.humanFromStage1 (human_ai_decision hm (pyStrip text))) ↔
        (hm.predict (pyStrip text) = "human" ∧
          config.human_confidence_threshold ≤
            round3 |hm.decision_function (pyStrip text)|)) := by
    intro config hm am text hwc
    unfold full_classify
    rw [if_neg (Nat.not_lt.mpr hwc)]
    constructor
    · intro hres
      by_cases hcond : (human_ai_decision hm (pyStrip text)).label = "human" ∧
          config.human_confidence_threshold ≤
            (human_ai_decision hm (pyStrip text)).confidence
      · exact hcond
      · rw [if_neg hcond] at hres
        exfalso
        cases hsa : safe_attribution am (pyStrip text) with
        | none =>
          simp only [hsa] at hres
          exact Option.noConfusion hres
        | some attrib =>
          simp only [hsa] at hres
          by_cases h1 : attrib.predicted_model = "human_story"
          · rw [if_pos h1] at hres
            exact Verdict.noConfusion (Option.some.inj hres)
          · rw [if_neg h1] at hres
            by_cases h2 : attrib.confidence_gap < config.attrib_confidence_gap
            · rw [if_pos h2] at hres
              exact Verdict.noConfusion (Option.some.inj hres)
            · rw [if_neg h2] at hres
              exact Verdict.noConfusion (Option.some.inj hres)
    · intro hcond
      rw [if_pos (show (human_ai_decision hm (pyStrip text)).label = "human" ∧
        config.human_confidence_threshold ≤
          (human_ai_decision hm (pyStrip text)).confidence from hcond)]
  have hround : round3 (4996/10000 : ℚ) = 1/2 := by
    unfold round3
    rw [round_eq]
    norm_num
  refine ⟨hgen, ⟨?_, ?_⟩, ⟨?_, ?_⟩⟩
  · show |(4996/10000 : ℚ)| < exConfig.human_confidence_threshold
    rw [abs_of_nonneg (by norm_num)]
    norm_num [exConfig]
  · refine (hgen exConfig c10HumanAI exAttrib "hello world" (by decide)).mpr
      ⟨rfl, ?_⟩
    show exConfig.human_confidence_threshold ≤ round3 |(4996/10000 : ℚ)|
    rw [abs_of_nonneg (by norm_num), hround]
    norm_num [exConfig]
  · norm_num [exConfig]
  · unfold full_classify
    rw [if_neg (by decide :
      ¬ word_count (pyStrip "hello world") < exConfig.min_words)]
    rw [if_neg (by decide :
      ¬ ((human_ai_decision exHumanAIVotesAi (pyStrip "hello world")).label = "human" ∧
        exConfig.human_confidence_threshold ≤
          (human_ai_decision exHumanAIVotesAi (pyStrip "hello world")).confidence))]
    simp only [c10AttribClose_attribution]
    rw [if_neg (by decide : ¬ ("gpt_style" : String) = "human_story")]
    rw [if_neg (by norm_num [exConfig] : ¬ ((3/20 : ℚ) < exConfig.attrib_confidence_gap))]

/-- Witness for `C10_rounded_comparisons`: its universally quantified first
conjunct applied at a concrete request that passes the guardrail. -/
theorem C10_witness :
    full_classify exConfig exHumanAI exAttrib "hello world" =
        some (Verdict.humanFromStage1
          (human_ai_decision exHumanAI (pyStrip "hello world"))) ↔
      (exHumanAI.predict (pyStrip "hello world") = "human" ∧
        exConfig.human_confidence_threshold ≤
          round3 |exHumanAI.decision_function (pyStrip "hello world")|) :=
  C10_rounded_comparisons.1 exConfig exHumanAI exAttrib "hello world" (by decide)
